import Mathlib

/-!
Verification of the fitness-tracker module `homework.py`.

The module computes workout summaries: three workout record kinds
(Running, SportsWalking, Swimming), each with distance / mean speed /
calorie formulas, a dispatcher `read_package` mapping a string code to a
constructor applied positionally to a numeric data list, and a summary
renderer `InfoMessage.get_message`.

Numbers are embedded as rationals (the Python source computes with
floats over decimal constants; every constant of the source is an exact
decimal, so exact rational arithmetic mirrors the formulas). Python's
float floor division `x // y` is `⌊x / y⌋` mapped back into the numeric
domain. Numeric string formatting `:.3f` is embedded as rounding to the
nearest thousandth and printing exactly three fractional digits.
-/

namespace Homework

/-- Source constant `M_IN_KM = 1000` (meters per kilometer). -/
def M_IN_KM : ℚ := 1000

/-- Source constant `LEN_STEP = 0.65` on the base class (meters per step). -/
def LEN_STEP : ℚ := 0.65

/-- Source constant `M_IN_H = 60` (minutes per hour). -/
def M_IN_H : ℚ := 60

/-- Python `x // y` on floats: floor of the true quotient. -/
def floordiv (x y : ℚ) : ℚ := (Int.floor (x / y) : ℤ)

/-- Record of class `Running(Training)`: fields of `Training.__init__`. -/
structure Running where
  action : ℚ
  duration : ℚ
  weight : ℚ
deriving DecidableEq

/-- Record of class `SportsWalking(Training)`: base fields plus `height`. -/
structure SportsWalking where
  action : ℚ
  duration : ℚ
  weight : ℚ
  height : ℚ
deriving DecidableEq

/-- Record of class `Swimming(Training)`: base fields plus `length_pool`, `count_pool`. -/
structure Swimming where
  action : ℚ
  duration : ℚ
  weight : ℚ
  length_pool : ℚ
  count_pool : ℚ
deriving DecidableEq

/-- Source constant `Running.COEFF_CALORIE_1 = 18`. -/
def Running.COEFF_CALORIE_1 : ℚ := 18

/-- Source constant `Running.COEFF_CALORIE_2 = 20`. -/
def Running.COEFF_CALORIE_2 : ℚ := 20

/-- Source constant `SportsWalking.COEFF_CALORIE_1 = 0.035`. -/
def SportsWalking.COEFF_CALORIE_1 : ℚ := 0.035

/-- Source constant `SportsWalking.COEFF_CALORIE_2 = 0.029`. -/
def SportsWalking.COEFF_CALORIE_2 : ℚ := 0.029

/-- Source constant `Swimming.LEN_STEP = 1.38`, overriding the base class. -/
def Swimming.LEN_STEP : ℚ := 1.38

/-- Source constant `Swimming.COEFF_CALORIE_1 = 1.1`. -/
def Swimming.COEFF_CALORIE_1 : ℚ := 1.1

/-- Source constant `Swimming.COEFF_CALORIE_2 = 2`. -/
def Swimming.COEFF_CALORIE_2 : ℚ := 2

/-- `Training.get_distance`, inherited by `Running` (base `LEN_STEP`). -/
def Running.get_distance (self : Running) : ℚ :=
  self.action * LEN_STEP / M_IN_KM

/-- `Training.get_mean_speed`, inherited by `Running`. -/
def Running.get_mean_speed (self : Running) : ℚ :=
  self.get_distance / self.duration

/-- `Running.get_spent_calories`. -/
def Running.get_spent_calories (self : Running) : ℚ :=
  (Running.COEFF_CALORIE_1 * self.get_mean_speed - Running.COEFF_CALORIE_2)
    * self.weight / M_IN_KM * self.duration * M_IN_H

/-- `Training.get_distance`, inherited by `SportsWalking` (base `LEN_STEP`). -/
def SportsWalking.get_distance (self : SportsWalking) : ℚ :=
  self.action * LEN_STEP / M_IN_KM

/-- `Training.get_mean_speed`, inherited by `SportsWalking`. -/
def SportsWalking.get_mean_speed (self : SportsWalking) : ℚ :=
  self.get_distance / self.duration

/-- `SportsWalking.get_spent_calories` (with the source's float floor division `//`). -/
def SportsWalking.get_spent_calories (self : SportsWalking) : ℚ :=
  (SportsWalking.COEFF_CALORIE_1 * self.weight
      + floordiv (self.get_mean_speed ^ 2) self.height
        * SportsWalking.COEFF_CALORIE_2 * self.weight)
    * self.duration * M_IN_H

/-- `Training.get_distance`, inherited by `Swimming`, which overrides `LEN_STEP`. -/
def Swimming.get_distance (self : Swimming) : ℚ :=
  self.action * Swimming.LEN_STEP / M_IN_KM

/-- `Swimming.get_mean_speed` (overrides the base method). -/
def Swimming.get_mean_speed (self : Swimming) : ℚ :=
  self.length_pool * self.count_pool / M_IN_KM / self.duration

/-- `Swimming.get_spent_calories`. -/
def Swimming.get_spent_calories (self : Swimming) : ℚ :=
  (self.get_mean_speed + Swimming.COEFF_CALORIE_1)
    * Swimming.COEFF_CALORIE_2 * self.weight

/-- The dynamic type of a record produced by `read_package`. -/
inductive TrainingRecord where
  | running : Running → TrainingRecord
  | walking : SportsWalking → TrainingRecord
  | swimming : Swimming → TrainingRecord
deriving DecidableEq

/-- Failures of `read_package`: the re-raised `KeyError` on an unknown code
(it carries the offending code), and the `TypeError` when the positional
data list does not match the constructor arity. -/
inductive ReadError where
  | unknownWorkoutType : String → ReadError
  | arityMismatch : ReadError
deriving DecidableEq

/-- `Running(*data)`: positional application of the data list. -/
def Running.construct : List ℚ → Except ReadError TrainingRecord
  | [a, d, w] => .ok (.running ⟨a, d, w⟩)
  | _ => .error .arityMismatch

/-- `SportsWalking(*data)`: positional application of the data list. -/
def SportsWalking.construct : List ℚ → Except ReadError TrainingRecord
  | [a, d, w, h] => .ok (.walking ⟨a, d, w, h⟩)
  | _ => .error .arityMismatch

/-- `Swimming(*data)`: positional application of the data list. -/
def Swimming.construct : List ℚ → Except ReadError TrainingRecord
  | [a, d, w, lp, cp] => .ok (.swimming ⟨a, d, w, lp, cp⟩)
  | _ => .error .arityMismatch

/-- `read_package`: dictionary lookup of the workout code, then positional
construction; on a missing key the `KeyError` carrying the code escapes. -/
def read_package (workout_type : String) (data : List ℚ) :
    Except ReadError TrainingRecord :=
  if workout_type = "SWM" then Swimming.construct data
  else if workout_type = "RUN" then Running.construct data
  else if workout_type = "WLK" then SportsWalking.construct data
  else .error (.unknownWorkoutType workout_type)

/-- The zero padding to three digits of the fractional part in `:.3f` formatting. -/
def padThree (n : Nat) : String :=
  String.mk (List.replicate (3 - (Nat.repr n).length) '0') ++ Nat.repr n

/-- Python `:.3f` formatting: the value rounded to the nearest thousandth,
printed with exactly three digits after the decimal point. -/
def formatFixed3 (q : ℚ) : String :=
  let n : ℤ := round (q * 1000)
  (if n < 0 then "-" else "")
    ++ Nat.repr (n.natAbs / 1000) ++ "." ++ padThree (n.natAbs % 1000)

/-- Source constant `TRAINING_TYPE_STR`. -/
def TRAINING_TYPE_STR : String := "Тип тренировки"

/-- Source constant `DURATION_STR`. -/
def DURATION_STR : String := "Длительность"

/-- Source constant `DISTANCE_STR`. -/
def DISTANCE_STR : String := "Дистанция"

/-- Source constant `SPEED_STR`. -/
def SPEED_STR : String := "Ср. скорость"

/-- Source constant `CALORIES_STR`. -/
def CALORIES_STR : String := "Потрачено ккал"

/-- Source constant `HOUR_STR`. -/
def HOUR_STR : String := "ч"

/-- Source constant `KM_STR`. -/
def KM_STR : String := "км"

/-- Source constant `KM_IN_H_STR`. -/
def KM_IN_H_STR : String := "км/ч"

/-- Dataclass `InfoMessage` (the spec's SummaryReport): `training_type` is the
spec's `activity_label`, the numeric fields are hours, km, km/h and kcal. -/
structure InfoMessage where
  training_type : String
  duration : ℚ
  distance : ℚ
  speed : ℚ
  calories : ℚ

/-- `InfoMessage.get_message`: the f-string of the source, concatenating the
named string constants, the interpolated fields (numerics through `:.3f`)
and the literal separators. -/
def InfoMessage.get_message (self : InfoMessage) : String :=
  TRAINING_TYPE_STR ++ ": " ++ self.training_type ++ "; "
    ++ DURATION_STR ++ ": " ++ formatFixed3 self.duration ++ " " ++ HOUR_STR ++ ".; "
    ++ DISTANCE_STR ++ ": " ++ formatFixed3 self.distance ++ " " ++ KM_STR ++ "; "
    ++ SPEED_STR ++ ": " ++ formatFixed3 self.speed ++ " " ++ KM_IN_H_STR ++ "; "
    ++ CALORIES_STR ++ ": " ++ formatFixed3 self.calories ++ "."

/-- Merging two adjacent literal pieces of a right-associated append chain. -/
theorem append_merge (a b c : String) {x : String} (h : a ++ b = c) :
    a ++ (b ++ x) = c ++ x := by rw [← String.append_assoc, h]

/-- The padded fractional part always has exactly three digits. -/
theorem padThree_length (k : Nat) (h : k < 1000) : (padThree k).length = 3 := by
  have h3 : (Nat.repr k).length ≤ 3 := Nat.repr_length k 3 (by norm_num) h
  have h0 : (padThree k).length = (3 - (Nat.repr k).length) + (Nat.repr k).length := by
    simp only [padThree, String.length_append, String.length_mk, List.length_replicate]
  omega

/-- C1: for each recognized type code, `read_package` returns an instance of
the matching variant — "SWM" yields Swimming, "RUN" yields Running, "WLK"
yields SportsWalking — constructed by applying the numeric data list
positionally as constructor arguments. -/
theorem read_package_matches_code_variants :
    (∀ a d w : ℚ, read_package "RUN" [a, d, w]
        = Except.ok (TrainingRecord.running ⟨a, d, w⟩))
  ∧ (∀ a d w h : ℚ, read_package "WLK" [a, d, w, h]
        = Except.ok (TrainingRecord.walking ⟨a, d, w, h⟩))
  ∧ (∀ a d w lp cp : ℚ, read_package "SWM" [a, d, w, lp, cp]
        = Except.ok (TrainingRecord.swimming ⟨a, d, w, lp, cp⟩)) :=
  ⟨fun _ _ _ => rfl, fun _ _ _ _ => rfl, fun _ _ _ _ _ => rfl⟩

/-- C2: for every Running record and every SportsWalking record,
`get_distance` returns `action × 0.65 / 1000`, and with nonzero duration
`get_mean_speed` returns `get_distance / duration`. -/
theorem step_based_distance_and_mean_speed :
    (∀ r : Running, r.duration ≠ 0 →
        r.get_distance = r.action * 0.65 / 1000
      ∧ r.get_mean_speed = r.get_distance / r.duration)
  ∧ (∀ w : SportsWalking, w.duration ≠ 0 →
        w.get_distance = w.action * 0.65 / 1000
      ∧ w.get_mean_speed = w.get_distance / w.duration) :=
  ⟨fun _ _ => ⟨rfl, rfl⟩, fun _ _ => ⟨rfl, rfl⟩⟩

/-- Witness for C2 at `Running(15000, 1, 75)` and `SportsWalking(9000, 1, 75, 180)`. -/
theorem step_based_distance_and_mean_speed_witness :
    (⟨15000, 1, 75⟩ : Running).duration ≠ 0
  ∧ (⟨9000, 1, 75, 180⟩ : SportsWalking).duration ≠ 0
  ∧ ((⟨15000, 1, 75⟩ : Running).get_distance
        = (⟨15000, 1, 75⟩ : Running).action * 0.65 / 1000
      ∧ (⟨15000, 1, 75⟩ : Running).get_mean_speed
        = (⟨15000, 1, 75⟩ : Running).get_distance / (⟨15000, 1, 75⟩ : Running).duration)
  ∧ ((⟨9000, 1, 75, 180⟩ : SportsWalking).get_distance
        = (⟨9000, 1, 75, 180⟩ : SportsWalking).action * 0.65 / 1000
      ∧ (⟨9000, 1, 75, 180⟩ : SportsWalking).get_mean_speed
        = (⟨9000, 1, 75, 180⟩ : SportsWalking).get_distance
            / (⟨9000, 1, 75, 180⟩ : SportsWalking).duration) :=
  ⟨by simp, by simp,
    step_based_distance_and_mean_speed.1 ⟨15000, 1, 75⟩ (by simp),
    step_based_distance_and_mean_speed.2 ⟨9000, 1, 75, 180⟩ (by simp)⟩

/-- C3: for every Running record with nonzero duration, `get_spent_calories`
returns `(18 × mean_speed − 20) × weight / 1000 × duration × 60`. -/
theorem running_spent_calories_formula (r : Running) (h : r.duration ≠ 0) :
    r.get_spent_calories
      = (18 * r.get_mean_speed - 20) * r.weight / 1000 * r.duration * 60 := rfl

/-- Witness for C3 at `Running(15000, 1, 75)`. -/
theorem running_spent_calories_formula_witness :
    (⟨15000, 1, 75⟩ : Running).duration ≠ 0
  ∧ (⟨15000, 1, 75⟩ : Running).get_spent_calories
      = (18 * (⟨15000, 1, 75⟩ : Running).get_mean_speed - 20)
          * (⟨15000, 1, 75⟩ : Running).weight / 1000
          * (⟨15000, 1, 75⟩ : Running).duration * 60 :=
  ⟨by simp, running_spent_calories_formula ⟨15000, 1, 75⟩ (by simp)⟩

/-- C4: for every SportsWalking record with nonzero duration and nonzero
height, `get_spent_calories` returns
`(0.035 × weight + floor_div(mean_speed², height) × 0.029 × weight) × duration × 60`,
where `floor_div` is floor division (rounded toward negative infinity),
not true division. -/
theorem walking_spent_calories_floor_formula
    (w : SportsWalking) (hd : w.duration ≠ 0) (hh : w.height ≠ 0) :
    w.get_spent_calories
      = (0.035 * w.weight
          + ((Int.floor (w.get_mean_speed ^ 2 / w.height) : ℤ) : ℚ)
              * 0.029 * w.weight)
        * w.duration * 60 := rfl

/-- Witness for C4 at `SportsWalking(9000, 1, 75, 180)`. -/
theorem walking_spent_calories_floor_formula_witness :
    (⟨9000, 1, 75, 180⟩ : SportsWalking).duration ≠ 0
  ∧ (⟨9000, 1, 75, 180⟩ : SportsWalking).height ≠ 0
  ∧ (⟨9000, 1, 75, 180⟩ : SportsWalking).get_spent_calories
      = (0.035 * (⟨9000, 1, 75, 180⟩ : SportsWalking).weight
          + ((Int.floor ((⟨9000, 1, 75, 180⟩ : SportsWalking).get_mean_speed ^ 2
                / (⟨9000, 1, 75, 180⟩ : SportsWalking).height) : ℤ) : ℚ)
              * 0.029 * (⟨9000, 1, 75, 180⟩ : SportsWalking).weight)
        * (⟨9000, 1, 75, 180⟩ : SportsWalking).duration * 60 :=
  ⟨by simp, by simp,
    walking_spent_calories_floor_formula ⟨9000, 1, 75, 180⟩ (by simp) (by simp)⟩

/-- C5: for every Swimming record with nonzero duration, `get_distance`
returns `action × 1.38 / 1000`, `get_mean_speed` returns
`length_pool × count_pool / 1000 / duration`, `get_spent_calories` returns
`(mean_speed + 1.1) × 2 × weight`; and `Swimming(720, 1, 80, 25, 40)` yields
distance 0.9936, mean speed 1 and calories 336. -/
theorem swimming_formulas_and_example :
    (∀ s : Swimming, s.duration ≠ 0 →
        s.get_distance = s.action * 1.38 / 1000
      ∧ s.get_mean_speed = s.length_pool * s.count_pool / 1000 / s.duration
      ∧ s.get_spent_calories = (s.get_mean_speed + 1.1) * 2 * s.weight)
  ∧ ((⟨720, 1, 80, 25, 40⟩ : Swimming).get_distance = 0.9936
      ∧ (⟨720, 1, 80, 25, 40⟩ : Swimming).get_mean_speed = 1
      ∧ (⟨720, 1, 80, 25, 40⟩ : Swimming).get_spent_calories = 336) :=
  ⟨fun _ _ => ⟨rfl, rfl, rfl⟩, by
    norm_num [Swimming.get_distance, Swimming.get_mean_speed,
      Swimming.get_spent_calories, Swimming.LEN_STEP, Swimming.COEFF_CALORIE_1,
      Swimming.COEFF_CALORIE_2, M_IN_KM]⟩

/-- Witness for C5 at `Swimming(720, 1, 80, 25, 40)`. -/
theorem swimming_formulas_and_example_witness :
    (⟨720, 1, 80, 25, 40⟩ : Swimming).duration ≠ 0
  ∧ ((⟨720, 1, 80, 25, 40⟩ : Swimming).get_distance
        = (⟨720, 1, 80, 25, 40⟩ : Swimming).action * 1.38 / 1000
      ∧ (⟨720, 1, 80, 25, 40⟩ : Swimming).get_mean_speed
        = (⟨720, 1, 80, 25, 40⟩ : Swimming).length_pool
            * (⟨720, 1, 80, 25, 40⟩ : Swimming).count_pool / 1000
            / (⟨720, 1, 80, 25, 40⟩ : Swimming).duration
      ∧ (⟨720, 1, 80, 25, 40⟩ : Swimming).get_spent_calories
        = ((⟨720, 1, 80, 25, 40⟩ : Swimming).get_mean_speed + 1.1) * 2
            * (⟨720, 1, 80, 25, 40⟩ : Swimming).weight) :=
  ⟨by simp, swimming_formulas_and_example.1 ⟨720, 1, 80, 25, 40⟩ (by simp)⟩

/-- C6: for every type code other than "SWM", "RUN", "WLK", `read_package`
fails with the unknown-workout-type error carrying the offending code, and
in particular `read_package "XXX" []` so fails. -/
theorem unknown_workout_type_propagates :
    (∀ (c : String), c ≠ "SWM" → c ≠ "RUN" → c ≠ "WLK" → ∀ data : List ℚ,
        read_package c data = Except.error (ReadError.unknownWorkoutType c))
  ∧ read_package "XXX" [] = Except.error (ReadError.unknownWorkoutType "XXX") :=
  ⟨fun c h1 h2 h3 _ => by simp [read_package, h1, h2, h3], rfl⟩

/-- Witness for C6 at the code "XXX". -/
theorem unknown_workout_type_propagates_witness :
    ("XXX" : String) ≠ "SWM" ∧ ("XXX" : String) ≠ "RUN" ∧ ("XXX" : String) ≠ "WLK"
  ∧ read_package "XXX" [] = Except.error (ReadError.unknownWorkoutType "XXX") :=
  ⟨by decide, by decide, by decide,
    unknown_workout_type_propagates.1 "XXX" (by decide) (by decide) (by decide) []⟩

/-- C7: rendering an InfoMessage produces exactly the single-line template
"Тип тренировки: ...; Длительность: ... ч.; Дистанция: ... км;
Ср. скорость: ... км/ч; Потрачено ккал: ...." with the four numeric fields
formatted to exactly three decimal places (the formatted string always has
a decimal point followed by exactly three digits). -/
theorem render_fixed_template :
    (∀ m : InfoMessage,
      m.get_message
        = "Тип тренировки: " ++ m.training_type ++ "; Длительность: "
          ++ formatFixed3 m.duration ++ " ч.; Дистанция: "
          ++ formatFixed3 m.distance ++ " км; Ср. скорость: "
          ++ formatFixed3 m.speed ++ " км/ч; Потрачено ккал: "
          ++ formatFixed3 m.calories ++ ".")
  ∧ (∀ q : ℚ, ∃ s t : String, formatFixed3 q = s ++ "." ++ t ∧ t.length = 3) := by
  constructor
  · intro m
    simp only [InfoMessage.get_message, TRAINING_TYPE_STR, DURATION_STR, DISTANCE_STR,
      SPEED_STR, CALORIES_STR, HOUR_STR, KM_STR, KM_IN_H_STR, String.append_assoc]
    rw [append_merge "Тип тренировки" ": " "Тип тренировки: " rfl]
    rw [append_merge "; " "Длительность" "; Длительность" rfl]
    rw [append_merge "; Длительность" ": " "; Длительность: " rfl]
    rw [append_merge " " "ч" " ч" rfl]
    rw [append_merge " ч" ".; " " ч.; " rfl]
    rw [append_merge " ч.; " "Дистанция" " ч.; Дистанция" rfl]
    rw [append_merge " ч.; Дистанция" ": " " ч.; Дистанция: " rfl]
    rw [append_merge " " "км" " км" rfl]
    rw [append_merge " км" "; " " км; " rfl]
    rw [append_merge " км; " "Ср. скорость" " км; Ср. скорость" rfl]
    rw [append_merge " км; Ср. скорость" ": " " км; Ср. скорость: " rfl]
    rw [append_merge " " "км/ч" " км/ч" rfl]
    rw [append_merge " км/ч" "; " " км/ч; " rfl]
    rw [append_merge " км/ч; " "Потрачено ккал" " км/ч; Потрачено ккал" rfl]
    rw [append_merge " км/ч; Потрачено ккал" ": " " км/ч; Потрачено ккал: " rfl]
  · intro q
    refine ⟨(if round (q * 1000) < 0 then "-" else "")
        ++ Nat.repr ((round (q * 1000)).natAbs / 1000),
      padThree ((round (q * 1000)).natAbs % 1000), rfl, ?_⟩
    exact padThree_length _ (Nat.mod_lt _ (by norm_num))

/-- C8 counterexample: `Running(15000, 1, 75).get_spent_calories` is exactly
699.75, which is far below the claimed ≈ 741.375. -/
theorem running_example_counterexample :
    (⟨15000, 1, 75⟩ : Running).get_spent_calories = 699.75
  ∧ (⟨15000, 1, 75⟩ : Running).get_spent_calories + 41 < 741.375 := by
  norm_num [Running.get_spent_calories, Running.get_mean_speed, Running.get_distance,
    Running.COEFF_CALORIE_1, Running.COEFF_CALORIE_2, LEN_STEP, M_IN_KM, M_IN_H]

/-- C8 as amended: `Running(15000, 1, 75)` yields distance 9.75, mean speed
9.75 and spent calories exactly 699.75. -/
theorem running_example_amended :
    (⟨15000, 1, 75⟩ : Running).get_distance = 9.75
  ∧ (⟨15000, 1, 75⟩ : Running).get_mean_speed = 9.75
  ∧ (⟨15000, 1, 75⟩ : Running).get_spent_calories = 699.75 := by
  norm_num [Running.get_spent_calories, Running.get_mean_speed, Running.get_distance,
    Running.COEFF_CALORIE_1, Running.COEFF_CALORIE_2, LEN_STEP, M_IN_KM, M_IN_H]

/-- C9 counterexample: `SportsWalking(9000, 1, 75, 180).get_spent_calories`
is exactly 157.5, strictly above 157.25, hence not equal to ≈ 157.24 to
three decimal places. -/
theorem walking_example_counterexample :
    (⟨9000, 1, 75, 180⟩ : SportsWalking).get_spent_calories = 157.5
  ∧ (157.25 : ℚ) < (⟨9000, 1, 75, 180⟩ : SportsWalking).get_spent_calories := by
  norm_num [SportsWalking.get_spent_calories, SportsWalking.get_mean_speed,
    SportsWalking.get_distance, SportsWalking.COEFF_CALORIE_1,
    SportsWalking.COEFF_CALORIE_2, floordiv, LEN_STEP, M_IN_KM, M_IN_H]

/-- C9 as amended: `SportsWalking(9000, 1, 75, 180)` yields distance 5.85,
mean speed 5.85 and, by the floor-division formula (whose floored quotient
is 0 here), spent calories exactly 157.5. -/
theorem walking_example_amended :
    (⟨9000, 1, 75, 180⟩ : SportsWalking).get_distance = 5.85
  ∧ (⟨9000, 1, 75, 180⟩ : SportsWalking).get_mean_speed = 5.85
  ∧ (⟨9000, 1, 75, 180⟩ : SportsWalking).get_spent_calories = 157.5 := by
  norm_num [SportsWalking.get_spent_calories, SportsWalking.get_mean_speed,
    SportsWalking.get_distance, SportsWalking.COEFF_CALORIE_1,
    SportsWalking.COEFF_CALORIE_2, floordiv, LEN_STEP, M_IN_KM, M_IN_H]

/-- C10: for Running and SportsWalking with nonzero duration, mean speed
times duration equals distance; for Swimming the identity fails, e.g. at
`Swimming(720, 1, 80, 25, 40)` the stroke-based distance 0.9936 differs
from mean speed times duration, which is pool-length-based (equal to 1). -/
theorem speed_duration_distance_identity :
    (∀ r : Running, r.duration ≠ 0 →
        r.get_mean_speed * r.duration = r.get_distance)
  ∧ (∀ w : SportsWalking, w.duration ≠ 0 →
        w.get_mean_speed * w.duration = w.get_distance)
  ∧ (⟨720, 1, 80, 25, 40⟩ : Swimming).get_distance
      ≠ (⟨720, 1, 80, 25, 40⟩ : Swimming).get_mean_speed
          * (⟨720, 1, 80, 25, 40⟩ : Swimming).duration :=
  ⟨fun _ h => div_mul_cancel₀ _ h, fun _ h => div_mul_cancel₀ _ h, by
    norm_num [Swimming.get_distance, Swimming.get_mean_speed, Swimming.LEN_STEP,
      M_IN_KM]⟩

/-- Witness for C10 at `Running(15000, 1, 75)` and `SportsWalking(9000, 1, 75, 180)`. -/
theorem speed_duration_distance_identity_witness :
    (⟨15000, 1, 75⟩ : Running).duration ≠ 0
  ∧ (⟨9000, 1, 75, 180⟩ : SportsWalking).duration ≠ 0
  ∧ (⟨15000, 1, 75⟩ : Running).get_mean_speed * (⟨15000, 1, 75⟩ : Running).duration
      = (⟨15000, 1, 75⟩ : Running).get_distance
  ∧ (⟨9000, 1, 75, 180⟩ : SportsWalking).get_mean_speed
        * (⟨9000, 1, 75, 180⟩ : SportsWalking).duration
      = (⟨9000, 1, 75, 180⟩ : SportsWalking).get_distance :=
  ⟨by simp, by simp,
    speed_duration_distance_identity.1 ⟨15000, 1, 75⟩ (by simp),
    speed_duration_distance_identity.2.1 ⟨9000, 1, 75, 180⟩ (by simp)⟩

end Homework
